import Mathlib

/-!
Verification of `custom_components/notifier` (Home Assistant notifier
integration).  The Python source in `custom_components/notifier/__init__.py`
is shallowly embedded below: every definition mirrors a function or a code
fragment of `NotifierManager`, with machine state (the platform state store,
the subscription registry) passed explicitly.
-/

namespace Notifier

/-- A raw entity-state value as stored by the platform state store.
`num q` stands for a state string that `float()` parses to the rational `q`;
`str s` stands for a state string that `float()` fails to parse
(e.g. `"home"`, `"on"`, `"not_home"`). -/
inductive SVal where
  | num (q : ℚ)
  | str (s : String)
deriving DecidableEq

/-- `state.state == "home"` (lines 201/210 of `__init__.py`): a numeric state
string is never the literal `"home"`. -/
def SVal.isHome : SVal → Bool
  | .num _ => false
  | .str s => s == "home"

/-- `home_state.state == "on"` (line 232): a numeric state string is never the
literal `"on"`. -/
def SVal.isOn : SVal → Bool
  | .num _ => false
  | .str s => s == "on"

/-- `NotifierManager._safe_float` (lines 251-255): `float(value)` on success,
`9999` when parsing raises. -/
def safe_float : SVal → ℚ
  | .num q => q
  | .str _ => 9999

/-- The platform state store (`hass.states`), as an association list from
entity id to state value. -/
abbrev States := List (String × SVal)

/-- `hass.states.get(eid)`, where `eid` may be `None` (a person dict may lack
the `id` / `proximity_id` key): `states.get(None)` returns `None`. -/
def states_get (st : States) : Option String → Option SVal
  | none => none
  | some eid => (st.find? (fun kv => kv.1 == eid)).map (fun kv => kv.2)

/-- A configured person dict: `{name, id, proximity_id, notification_service}`,
each key optional (`p.get(...)`). -/
structure Person where
  name : Option String
  id : Option String
  proximity_id : Option String
  notification_service : Option String
deriving DecidableEq

/-- `home = state.state == "home" if state else False`
(lines 200-201 and 209-210). -/
def home_of (st : States) (p : Person) : Bool :=
  match states_get st p.id with
  | some s => s.isHome
  | none => false

/-- `prox = self._safe_float(prox_state.state) if prox_state else 9999`
(lines 202-203, 211-212, 219-220, 225-226). -/
def prox_of (st : States) (p : Person) : ℚ :=
  match states_get st p.proximity_id with
  | some s => safe_float s
  | none => 9999

/-- One `callback` list entry: `{event, title}` (both via `.get`). -/
structure Callback where
  event : Option String
  title : Option String
deriving DecidableEq

/-- A `NOTIFIER` event's data dict, restricted to the fields the send path
reads (`title`, `message`, `tag`, `callback`, `image_url`, `click_url`,
`color`).  A missing dict key is `none`. -/
structure Request where
  title : Option String
  message : Option String
  tag : Option String
  callback : Option (List Callback)
  image_url : Option String
  click_url : Option String
  color : Option String
deriving DecidableEq

/-- One entry of the `actions` list built by `_build_payload`:
`{"action": cb.get("event"), "title": cb.get("title")}`. -/
structure ActionEntry where
  action : Option String
  title : Option String
deriving DecidableEq

/-- The dict built by `_build_payload` (lines 237-249): starts empty, each
key set only when the corresponding request key is present. -/
structure Payload where
  actions : Option (List ActionEntry)
  tag : Option String
  image : Option String
  clickAction : Option String
  color : Option String
deriving DecidableEq

/-- `NotifierManager._build_payload` (lines 237-249), line by line:
`payload = {}` then five conditional key assignments. -/
def build_payload (d : Request) : Payload :=
  let payload : Payload :=
    { actions := none, tag := none, image := none, clickAction := none, color := none }
  let payload :=
    match d.callback with
    | some cbs =>
        { payload with
          actions := some (cbs.map (fun cb => { action := cb.event, title := cb.title })) }
    | none => payload
  let payload :=
    match d.tag with
    | some t => { payload with tag := some t }
    | none => payload
  let payload :=
    match d.image_url with
    | some u => { payload with image := some u }
    | none => payload
  let payload :=
    match d.click_url with
    | some u => { payload with clickAction := some u }
    | none => payload
  match d.color with
  | some c => { payload with color := some c }
  | none => payload

/-- Split a character list at its first `'/'`: `none` when there is no
slash, otherwise the parts before and after it. -/
def break_at_slash : List Char → Option (List Char × List Char)
  | [] => none
  | c :: cs =>
      if c = '/' then some ([], cs)
      else
        match break_at_slash cs with
        | some pq => some (c :: pq.1, pq.2)
        | none => none

/-- `domain, service = svc.split("/", 1) if "/" in svc else ("notify", svc)`
(lines 163-166 and 187-190): split at the FIRST slash; no slash means the
`notify` domain with the whole string as service name. -/
def split_service (svc : String) : String × String :=
  match break_at_slash svc.data with
  | some pq => (String.mk pq.1, String.mk pq.2)
  | none => ("notify", svc)

/-- The data dict passed to `hass.services.async_call`: the send path passes
`{"title": ..., "message": ..., **payload}` (line 192), the clear path passes
`{"message": "clear_notification"}` (line 167). -/
structure SvcData where
  title : Option String
  message : Option String
  payload : Option Payload
deriving DecidableEq

/-- One attempted `hass.services.async_call(domain, service, data)`. -/
structure NotifyCall where
  domain : String
  service : String
  data : SvcData
deriving DecidableEq

/-- The outcome of `_call_notify_service` (lines 175-180): the call is always
attempted; `ok` records whether the external service call raised (the
exception is caught and logged, never propagated). -/
structure CallResult where
  call : NotifyCall
  ok : Bool
deriving DecidableEq

/-- `NotifierManager._call_notify_service` (lines 175-180), with the external
dispatcher's failures modelled by the predicate `fails`: a failing call is
swallowed (`except ... _LOGGER.error`), so the function is total and still
reports the attempt. -/
def call_notify_service (fails : NotifyCall → Bool) (domain service : String)
    (data : SvcData) : CallResult :=
  let c : NotifyCall := { domain := domain, service := service, data := data }
  { call := c, ok := !fails c }

/-- `NotifierManager._send_to_person` (lines 183-192): no channel means no
call; otherwise split the channel into domain/service and call with
`{"title": data.get("title",""), "message": data.get("message",""), **payload}`. -/
def send_to_person (fails : NotifyCall → Bool) (d : Request) (p : Person) :
    List CallResult :=
  match p.notification_service with
  | none => []
  | some svc =>
      let ds := split_service svc
      [call_notify_service fails ds.1 ds.2
        { title := some (d.title.getD ""), message := some (d.message.getD ""),
          payload := some (build_payload d) }]

/-- The persons the `_send_to_present` loop dispatches to (lines 198-205):
`if home or prox <= self.threshold`. -/
def select_present (st : States) (th : ℚ) (ps : List Person) : List Person :=
  ps.filter (fun p => home_of st p || decide (prox_of st p ≤ th))

/-- `NotifierManager._send_to_present` (lines 198-205). -/
def send_to_present (fails : NotifyCall → Bool) (st : States) (th : ℚ)
    (d : Request) (ps : List Person) : List CallResult :=
  (select_present st th ps).flatMap (send_to_person fails d)

/-- The persons the `_send_to_absent` loop dispatches to (lines 207-214):
`if not home or prox > self.threshold` — note the `or`. -/
def select_absent (st : States) (th : ℚ) (ps : List Person) : List Person :=
  ps.filter (fun p => !home_of st p || decide (prox_of st p > th))

/-- `NotifierManager._send_to_absent` (lines 207-214). -/
def send_to_absent (fails : NotifyCall → Bool) (st : States) (th : ℚ)
    (d : Request) (ps : List Person) : List CallResult :=
  (select_absent st th ps).flatMap (send_to_person fails d)

/-- The persons the `_send_to_nearest` loop dispatches to (lines 216-228):
collect all proximities, return if the list is empty, else select
`prox <= min(proximities) + threshold`. -/
def select_nearest (st : States) (th : ℚ) (ps : List Person) : List Person :=
  match (ps.map (prox_of st)).min? with
  | none => []
  | some minp => ps.filter (fun p => decide (prox_of st p ≤ minp + th))

/-- `NotifierManager._send_to_nearest` (lines 216-228). -/
def send_to_nearest (fails : NotifyCall → Bool) (st : States) (th : ℚ)
    (d : Request) (ps : List Person) : List CallResult :=
  (select_nearest st th ps).flatMap (send_to_person fails d)

/-- `NotifierManager._send_to_all` (lines 194-196). -/
def send_to_all (fails : NotifyCall → Bool) (d : Request) (ps : List Person) :
    List CallResult :=
  ps.flatMap (send_to_person fails d)

/-- The platform's subscription machinery (`hass.bus.async_listen`,
`event_helper.async_track_state_change`): subscriptions are numbered as they
are created and `live` lists the ones whose remove-callback has not (yet)
successfully run. -/
structure SubEnv where
  nextId : Nat
  live : List Nat
deriving DecidableEq

/-- Creating a subscription returns its remove-handle (here: its id). -/
def subscribe (e : SubEnv) : SubEnv × Nat :=
  ({ nextId := e.nextId + 1, live := e.live ++ [e.nextId] }, e.nextId)

/-- Running a subscription's remove-callback. -/
def unsubscribe (e : SubEnv) (i : Nat) : SubEnv :=
  { e with live := e.live.filter (fun x => x != i) }

/-- `try: remove() except Exception: pass` (lines 80-83, 87-90, 170-173):
when the remove-callback raises (`fails_unsub i`), the subscription stays
live and the exception is swallowed. -/
def try_unsubscribe (fails_unsub : Nat → Bool) (e : SubEnv) (i : Nat) : SubEnv :=
  if fails_unsub i then e else unsubscribe e i

/-- `self.watchers[tag] = remove` (line 140): plain dict assignment —
replaces the binding if the key exists, inserts it otherwise.  The prior
remove-handle, if any, is dropped without being run. -/
def set_watcher (ws : List (String × Nat)) (tag : String) (sub : Nat) :
    List (String × Nat) :=
  if ws.any (fun kv => kv.1 == tag) then
    ws.map (fun kv => if kv.1 == tag then (tag, sub) else kv)
  else ws ++ [(tag, sub)]

/-- `self.watchers.pop(tag, None)` (line 168). -/
def pop_watcher (ws : List (String × Nat)) (tag : String) :
    Option Nat × List (String × Nat) :=
  match ws.find? (fun kv => kv.1 == tag) with
  | some kv => (some kv.2, ws.filter (fun kv => kv.1 != tag))
  | none => (none, ws)

/-- One `until` list entry: `{entity_id, new_state}` (lines 133-134). -/
structure WatchCond where
  entity_id : Option String
  new_state : Option String
deriving DecidableEq

/-- The `until` block of `_handle_notifier_event` (lines 131-141): for each
watch condition, create a state-change subscription and assign its
remove-handle into `self.watchers[tag]`. -/
def register_watchers (tag : String) (conds : List WatchCond)
    (ws : List (String × Nat)) (e : SubEnv) : List (String × Nat) × SubEnv :=
  match conds with
  | [] => (ws, e)
  | _c :: rest =>
      let er := subscribe e
      register_watchers tag rest (set_watcher ws tag er.2) er.1

/-- `NotifierManager._clear_notifications` (lines 158-173): one clear call per
configured person with a channel (each failure swallowed inside
`_call_notify_service`), then `watchers.pop(tag, None)` and, if a handle was
there, `remove()` inside `try/except`. -/
def clear_notifications (fails : NotifyCall → Bool) (fails_unsub : Nat → Bool)
    (ps : List Person) (tag : String) (ws : List (String × Nat)) (e : SubEnv) :
    List CallResult × List (String × Nat) × SubEnv :=
  let results := ps.flatMap (fun p =>
    match p.notification_service with
    | none => []
    | some svc =>
        let ds := split_service svc
        [call_notify_service fails ds.1 ds.2
          { title := none, message := some "clear_notification", payload := none }])
  let pw := pop_watcher ws tag
  let e2 :=
    match pw.1 with
    | some sub => try_unsubscribe fails_unsub e sub
    | none => e
  (results, pw.2, e2)

/-- The `NotifierManager` instance state: configuration plus the mutable
`staged`, `watchers` and `_listeners` fields (lines 52-60). -/
structure Manager where
  home_sensor : Option String
  threshold : ℚ
  persons : List Person
  staged : List Request
  watchers : List (String × Nat)
  listeners : List Nat
deriving DecidableEq

/-- `NotifierManager.async_start` (lines 62-74): three `hass.bus.async_listen`
calls whose returned remove-handles are DISCARDED, then one
`async_track_state_change` whose handle is appended to `self._listeners`. -/
def async_start (m : Manager) (e : SubEnv) : Manager × SubEnv :=
  let e1 := (subscribe e).1
  let e2 := (subscribe e1).1
  let e3 := (subscribe e2).1
  let er := subscribe e3
  ({ m with listeners := m.listeners ++ [er.2] }, er.1)

/-- `NotifierManager.async_stop` (lines 76-91): run every handle in
`self._listeners` under `try/except`, clear the list; run every handle in
`self.watchers` under `try/except`, clear the dict. -/
def async_stop (fails_unsub : Nat → Bool) (m : Manager) (e : SubEnv) :
    Manager × SubEnv :=
  let e1 := m.listeners.foldl (try_unsubscribe fails_unsub) e
  let e2 := (m.watchers.map (fun kv => kv.2)).foldl (try_unsubscribe fails_unsub) e1
  ({ m with listeners := [], watchers := [] }, e2)

/-- The body of the `while self.staged:` loop in `_home_state_changed`
(lines 98-100): pop the head of the queue, THEN create the dispatch task for
it. -/
def drain_step : List Request × List Request → List Request × List Request
  | ([], tasks) => ([], tasks)
  | (d :: rest, tasks) => (rest, tasks ++ [d])

/-- `k` iterations of the drain loop, starting from queue `staged` with no
task created yet. -/
def drain_iter (staged : List Request) : Nat → List Request × List Request
  | 0 => (staged, [])
  | k + 1 => drain_step (drain_iter staged k)

/-- The `while self.staged:` loop run to completion (tail-recursively):
returns the final queue and the dispatch tasks created, in creation order. -/
def while_staged : List Request → List Request → List Request × List Request
  | [], tasks => ([], tasks)
  | d :: rest, tasks => while_staged rest (tasks ++ [d])

/-- `NotifierManager._home_state_changed` (lines 93-100): when the new state
is `"on"` and the queue is non-empty, drain the queue, creating one
`_send_to_present` task per popped request. -/
def home_state_changed (m : Manager) (new : String) : Manager × List Request :=
  if new == "on" && !m.staged.isEmpty then
    let r := while_staged m.staged []
    ({ m with staged := r.1 }, r.2)
  else (m, [])

/-- The dispatch of the tasks created by a drain: each drained request runs
`_send_to_present` against the state store as it is when the task runs
(drain time), not as it was when the request was staged. -/
def dispatch_drained (fails : NotifyCall → Bool) (st : States) (th : ℚ)
    (ps : List Person) (tasks : List Request) : List (List CallResult) :=
  tasks.map (fun d => send_to_present fails st th d ps)

/-- `NotifierManager._send_when_present` (lines 230-235): if the occupancy
sensor's state exists and is `"on"`, behave as `_send_to_present`; otherwise
append the request to `self.staged`. -/
def send_when_present (fails : NotifyCall → Bool) (st : States) (m : Manager)
    (d : Request) : Manager × List CallResult :=
  match states_get st m.home_sensor with
  | some s =>
      if s.isOn then (m, send_to_present fails st m.threshold d m.persons)
      else ({ m with staged := m.staged ++ [d] }, [])
  | none => ({ m with staged := m.staged ++ [d] }, [])

/-! ### Concrete scenario data -/

/-- Person A of the spec's §8 threshold-500 scenario. -/
def personA : Person :=
  ⟨some "A", some "person.a", some "proximity.a", some "notify/mobile_a"⟩

/-- Person B of the spec's §8 threshold-500 scenario. -/
def personB : Person :=
  ⟨some "B", some "person.b", some "proximity.b", some "notify/mobile_b"⟩

/-- State store for the threshold-500 scenario: A not home at proximity 300,
B home at proximity 9999. -/
def statesAB : States :=
  [("person.a", .str "not_home"), ("proximity.a", .num 300),
   ("person.b", .str "home"), ("proximity.b", .num 9999)]

/-- A watch condition used in concrete runs. -/
def condX : WatchCond := ⟨some "sensor.x", some "off"⟩

/-- A freshly configured manager with no persons. -/
def manager0 : Manager := ⟨some "binary_sensor.home", 1000, [], [], [], []⟩

/-- Person C for the staging scenario. -/
def personC : Person :=
  ⟨some "C", some "person.c", some "proximity.c", some "notify/mobile_c"⟩

/-- The `when-present` door request of the spec's §8 staging scenario. -/
def reqDoor : Request := ⟨some "Door", some "Open", none, none, none, none, none⟩

/-- Manager configured with person C, threshold 1000. -/
def managerC : Manager := ⟨some "binary_sensor.home", 1000, [personC], [], [], []⟩

/-- Enqueue-time states: occupancy off, C away and far. -/
def statesEnq : States :=
  [("binary_sensor.home", .str "off"), ("person.c", .str "not_home"),
   ("proximity.c", .num 9999)]

/-- Drain-time states: occupancy on, C home. -/
def statesDrain : States :=
  [("binary_sensor.home", .str "on"), ("person.c", .str "home"),
   ("proximity.c", .num 9999)]

/-- Persons D and E for the everyone-far scenario. -/
def personD : Person :=
  ⟨some "D", some "person.d", some "proximity.d", some "notify/mobile_d"⟩

/-- See `personD`. -/
def personE : Person :=
  ⟨some "E", some "person.e", some "proximity.e", some "notify/mobile_e"⟩

/-- No one home, all proximities 9999. -/
def statesFar : States :=
  [("person.d", .str "not_home"), ("proximity.d", .num 9999),
   ("person.e", .str "not_home"), ("proximity.e", .num 9999)]

/-- Person F, not home at proximity 300. -/
def personF : Person :=
  ⟨some "F", some "person.f", some "proximity.f", some "notify/mobile_f"⟩

/-- State store for person F. -/
def statesF : States :=
  [("person.f", .str "not_home"), ("proximity.f", .num 300)]

/-- Person G, whose home state is missing from `statesG`. -/
def personG : Person :=
  ⟨some "G", some "person.g", some "proximity.g", some "notify/mobile_g"⟩

/-- Person G's home entity has no state at all; the proximity reads 0. -/
def statesG : States := [("proximity.g", .num 0)]

/-- Person H, with no home state and a non-numeric proximity state. -/
def personH : Person :=
  ⟨some "H", some "person.h", some "proximity.h", some "notify/mobile_h"⟩

/-- Person K, not home at proximity 100. -/
def personK : Person :=
  ⟨some "K", some "person.k", some "proximity.k", some "notify/mobile_k"⟩

/-- H's home entity missing, H's proximity `"unknown"`; K present with
proximity 100. -/
def statesHK : States :=
  [("proximity.h", .str "unknown"),
   ("person.k", .str "not_home"), ("proximity.k", .num 100)]

/-- Person W for the clear-by-tag witness. -/
def personW : Person :=
  ⟨some "W", some "person.w", some "proximity.w", some "notify/mobile_w"⟩

/-- A request with every optional field present, for the payload witness. -/
def reqFull : Request :=
  ⟨some "T", some "M", some "tg", some [⟨some "ev", some "cbt"⟩],
   some "http://img", some "http://click", some "red"⟩

/-- Person P9 for the payload witness. -/
def personP9 : Person :=
  ⟨some "P9", some "person.p9", some "proximity.p9", some "notify/mobile_p9"⟩

/-! ### Helper lemmas -/

/-- After `k` iterations of the drain loop, the tasks created so far are
exactly the first `k` staged requests (in order) and the queue holds the
rest: an entry leaves the queue before its dispatch task exists. -/
theorem drain_iter_eq (staged : List Request) (k : Nat) :
    drain_iter staged k = (staged.drop k, staged.take k) := by
  induction k with
  | zero => simp [drain_iter]
  | succ k ih =>
      rw [drain_iter, ih]
      have hdrop : staged.drop (k + 1) = (staged.drop k).drop 1 := by
        rw [List.drop_drop]
      have htake : staged.take (k + 1) = staged.take k ++ (staged.drop k).take 1 := by
        rw [← List.take_add]
      cases h : staged.drop k with
      | nil => simp [drain_step, hdrop, htake, h]
      | cons d rest => simp [drain_step, hdrop, htake, h]

/-- The drain loop run to completion empties the queue and turns it into
tasks in FIFO order. -/
theorem while_staged_eq (s : List Request) :
    ∀ t : List Request, while_staged s t = ([], t ++ s) := by
  induction s with
  | nil => intro t; simp [while_staged]
  | cons d rest ih => intro t; rw [while_staged, ih]; simp

/-- On an `"on"` transition the queue is emptied and its former contents,
in order, become the dispatch tasks. -/
theorem home_state_changed_on (m : Manager) :
    home_state_changed m "on" = ({ m with staged := [] }, m.staged) := by
  obtain ⟨hs, th, ps, staged, ws, ls⟩ := m
  cases staged with
  | nil => simp [home_state_changed]
  | cons d rest => simp [home_state_changed, while_staged_eq]

/-! ### Claims -/

/-- C1: the claim says `absent` selects exactly when home is false AND
proximity exceeds the threshold (the exact negation of `present`), so in the
threshold-500 scenario (A not home at 300, B home at 9999) `absent` is empty.
The code (`_send_to_absent`, line 213) tests `not home or prox > threshold`,
so it selects BOTH A and B — while `present` also selects both. -/
theorem c1_absent_uses_or :
    select_absent statesAB 500 [personA, personB] = [personA, personB] ∧
    select_present statesAB 500 [personA, personB] = [personA, personB] := by
  decide

/-- C2: the claim says registering a new Watch under a tag releases the prior
subscription.  Concretely registering twice under tag `"t"` leaves the
registry with the single entry `("t", 1)` but BOTH subscriptions 0 and 1
live: subscription 0 is leaked (lines 131-141 overwrite `watchers[tag]`
without calling the prior remove-handle).  Clearing the tag then removes the
entry and releases subscription 1 only, leaving the leak. -/
theorem c2_watch_overwrite_leaks :
    (register_watchers "t" [condX] (register_watchers "t" [condX] [] ⟨0, []⟩).1
        (register_watchers "t" [condX] [] ⟨0, []⟩).2).1 = [("t", 1)] ∧
    (register_watchers "t" [condX] (register_watchers "t" [condX] [] ⟨0, []⟩).1
        (register_watchers "t" [condX] [] ⟨0, []⟩).2).2.live = [0, 1] ∧
    (clear_notifications (fun _ => false) (fun _ => false) [] "t"
        [("t", 1)] ⟨2, [0, 1]⟩).2.1 = [] ∧
    (clear_notifications (fun _ => false) (fun _ => false) [] "t"
        [("t", 1)] ⟨2, [0, 1]⟩).2.2.live = [0] := by
  decide

/-- C3: the claim says `stop()` releases every subscription `start()`
registered, including the three event-bus listeners.  `async_start`
(lines 65-67) discards the remove-handles returned by the three
`hass.bus.async_listen` calls, so after `async_start` then `async_stop`
(with every unsubscribe succeeding) subscriptions 0, 1, 2 — the bus
listeners — are still live; only the state tracker (3) was released. -/
theorem c3_stop_leaks_bus_listeners :
    (async_start manager0 ⟨0, []⟩).2.live = [0, 1, 2, 3] ∧
    (async_start manager0 ⟨0, []⟩).1.listeners = [3] ∧
    (async_stop (fun _ => false) (async_start manager0 ⟨0, []⟩).1
        (async_start manager0 ⟨0, []⟩).2).1.listeners = [] ∧
    (async_stop (fun _ => false) (async_start manager0 ⟨0, []⟩).1
        (async_start manager0 ⟨0, []⟩).2).1.watchers = [] ∧
    (async_stop (fun _ => false) (async_start manager0 ⟨0, []⟩).1
        (async_start manager0 ⟨0, []⟩).2).2.live = [0, 1, 2] := by
  decide

/-- C4: draining on the `"on"` transition is FIFO with each request removed
from the queue before its dispatch task exists (after `k` loop iterations the
tasks are the first `k` staged requests and the queue holds the rest), the
queue is empty afterwards — and, in the spec's staging scenario, a request
staged while person C was away (the `present` selection at enqueue time is
empty) is dispatched to C at drain time, because `_send_to_present` runs
against the drain-time state store. -/
theorem c4_staging_drain :
    (∀ (staged : List Request) (k : Nat),
        drain_iter staged k = (staged.drop k, staged.take k)) ∧
    (∀ m : Manager, home_state_changed m "on" = ({ m with staged := [] }, m.staged)) ∧
    (send_when_present (fun _ => false) statesEnq managerC reqDoor).2 = [] ∧
    (send_when_present (fun _ => false) statesEnq managerC reqDoor).1.staged = [reqDoor] ∧
    select_present statesEnq 1000 [personC] = [] ∧
    (home_state_changed (send_when_present (fun _ => false) statesEnq managerC reqDoor).1
        "on").1.staged = [] ∧
    (home_state_changed (send_when_present (fun _ => false) statesEnq managerC reqDoor).1
        "on").2 = [reqDoor] ∧
    dispatch_drained (fun _ => false) statesDrain 1000 [personC] [reqDoor] =
      [[⟨⟨"notify", "mobile_c",
          ⟨some "Door", some "Open", some (build_payload reqDoor)⟩⟩, true⟩]] := by
  refine ⟨drain_iter_eq, home_state_changed_on, ?_⟩
  decide

/-- C6: `present` selects a person exactly when their home state reads
`"home"` or their (defaulted) proximity is at most the threshold; in the
everyone-away scenario (no one home, all proximities 9999, threshold 1000)
`_send_to_present` makes zero dispatch calls. -/
theorem c6_present_rule :
    (∀ (st : States) (th : ℚ) (ps : List Person) (p : Person),
        p ∈ select_present st th ps ↔
          p ∈ ps ∧ (home_of st p = true ∨ prox_of st p ≤ th)) ∧
    send_to_present (fun _ => false) statesFar 1000 reqDoor [personD, personE] = [] := by
  constructor
  · intro st th ps p
    simp [select_present, List.mem_filter]
  · decide

/-- C7 counterexample: with a negative threshold (the configuration field is
a plain `int`, nowhere restricted to be non-negative) the `nearest` selection
over the non-empty person list `[F]` is empty, although F's proximity (300)
is present and minimal — so the selection does not always contain a person
attaining the minimum. -/
theorem c7_nearest_empty_at_negative_threshold :
    prox_of statesF personF = 300 ∧
    select_nearest statesF (-1 : ℚ) [personF] = [] := by
  have hp : prox_of statesF personF = 300 := rfl
  have hmin : ([personF].map (prox_of statesF)).min? = some 300 := rfl
  refine ⟨hp, ?_⟩
  simp only [select_nearest, hmin, List.filter_cons, List.filter_nil, hp]
  norm_num

/-- C7 (amended): for every NON-NEGATIVE threshold the `nearest` selection of
a non-empty person list contains a person attaining the minimum proximity;
and for thresholds `t1 ≤ t2` over the same presence data the selection at
`t1` is contained in the selection at `t2` (this half needs no sign
condition). -/
theorem c7_nearest_amended :
    (∀ (st : States) (th : ℚ) (ps : List Person), 0 ≤ th → ps ≠ [] →
        ∃ p, p ∈ select_nearest st th ps ∧ ∀ q ∈ ps, prox_of st p ≤ prox_of st q) ∧
    (∀ (st : States) (t1 t2 : ℚ) (ps : List Person), t1 ≤ t2 →
        ∀ p, p ∈ select_nearest st t1 ps → p ∈ select_nearest st t2 ps) := by
  constructor
  · intro st th ps hth hps
    cases hmin : (ps.map (prox_of st)).min? with
    | none =>
        rw [List.min?_eq_none_iff, List.map_eq_nil_iff] at hmin
        exact absurd hmin hps
    | some minp =>
        have hmem : minp ∈ ps.map (prox_of st) :=
          List.min?_mem (fun a b => min_choice a b) hmin
        have hle : ∀ b ∈ ps.map (prox_of st), minp ≤ b :=
          (List.le_min?_iff (fun _ _ _ => le_min_iff) hmin).mp le_rfl
        obtain ⟨p, hp, hpe⟩ := List.mem_map.mp hmem
        refine ⟨p, ?_, ?_⟩
        · simp only [select_nearest, hmin, List.mem_filter, hp, true_and,
            decide_eq_true_iff, hpe]
          linarith
        · intro q hq
          rw [hpe]
          exact hle _ (List.mem_map_of_mem _ hq)
  · intro st t1 t2 ps h12 p hp
    cases hmin : (ps.map (prox_of st)).min? with
    | none =>
        simp only [select_nearest, hmin] at hp
        exact absurd hp (List.not_mem_nil p)
    | some minp =>
        simp only [select_nearest, hmin, List.mem_filter, decide_eq_true_iff] at hp ⊢
        exact ⟨hp.1, le_trans hp.2 (by linarith)⟩

/-- C7 amended, instantiated: with threshold 1 the selection over `[F]`
contains a minimum-proximity person, and the threshold-1 selection is
contained in the threshold-2 selection. -/
theorem c7_nearest_amended_witness :
    (∃ p, p ∈ select_nearest statesF 1 [personF] ∧
        ∀ q ∈ [personF], prox_of statesF p ≤ prox_of statesF q) ∧
    (∀ p, p ∈ select_nearest statesF 1 [personF] →
        p ∈ select_nearest statesF 2 [personF]) :=
  ⟨c7_nearest_amended.1 statesF 1 [personF] (by norm_num) (by decide),
   c7_nearest_amended.2 statesF 1 2 [personF] (by norm_num)⟩

/-- C5 counterexample: the claim says a person with missing home state OR
missing/non-numeric proximity behaves as if both were defaulted, hence is
excluded from `present`.  Person G's home entity has no state at all, yet
G's proximity reads 0 ≤ 1000, so `present` selects G. -/
theorem c5_missing_home_still_present :
    states_get statesG personG.id = none ∧
    select_present statesG 1000 [personG] = [personG] := by
  decide

/-- C5 (amended): each missing or unparsable field is defaulted
independently and without error — a missing home state reads as false, a
missing or non-numeric proximity state reads as the sentinel 9999.  A person
with BOTH fields missing/non-numeric is excluded from `present` whenever the
threshold is below the sentinel, is always included in `absent` (as the code
computes it), and is excluded from `nearest` whenever the minimum proximity
plus the threshold stays below the sentinel. -/
theorem c5_defaults_amended :
    ∀ (st : States) (th : ℚ) (ps : List Person) (p : Person),
      states_get st p.id = none →
      (states_get st p.proximity_id = none ∨
        ∃ s, states_get st p.proximity_id = some (SVal.str s)) →
      home_of st p = false ∧ prox_of st p = 9999 ∧
      (th < 9999 → p ∉ select_present st th ps) ∧
      (p ∈ ps → p ∈ select_absent st th ps) ∧
      (∀ minp, (ps.map (prox_of st)).min? = some minp → minp + th < 9999 →
        p ∉ select_nearest st th ps) := by
  intro st th ps p h1 h2
  have hhome : home_of st p = false := by simp [home_of, h1]
  have hprox : prox_of st p = 9999 := by
    rcases h2 with h2 | ⟨s, h2⟩ <;> simp [prox_of, h2, safe_float]
  refine ⟨hhome, hprox, ?_, ?_, ?_⟩
  · intro hth hmem
    simp only [select_present, List.mem_filter, hhome, hprox, Bool.false_or,
      decide_eq_true_eq] at hmem
    linarith [hmem.2]
  · intro hmem
    simp only [select_absent, List.mem_filter, hhome]
    simp [hmem]
  · intro minp hmin hlt hmem
    simp only [select_nearest, hmin, List.mem_filter, hprox,
      decide_eq_true_eq] at hmem
    linarith [hmem.2]

/-- C5 amended, instantiated: person H (home entity stateless, proximity
state `"unknown"`) defaults to not-home at 9999, is excluded from `present`
and `nearest`, and included in `absent` (threshold 1000, K at proximity
100). -/
theorem c5_defaults_amended_witness :
    home_of statesHK personH = false ∧ prox_of statesHK personH = 9999 ∧
    personH ∉ select_present statesHK 1000 [personH, personK] ∧
    personH ∈ select_absent statesHK 1000 [personH, personK] ∧
    personH ∉ select_nearest statesHK 1000 [personH, personK] := by
  obtain ⟨h1, h2, h3, h4, h5⟩ :=
    c5_defaults_amended statesHK 1000 [personH, personK] personH rfl
      (Or.inr ⟨"unknown", rfl⟩)
  exact ⟨h1, h2, h3 (by norm_num), h4 (by decide), h5 100 rfl (by norm_num)⟩

/-- C8: `_clear_notifications` attempts exactly one clear call (message
`"clear_notification"`) per configured person with a channel, whatever the
dispatch-failure pattern (each failure is swallowed inside
`_call_notify_service`); afterwards the tag's registry entry is gone and, if
a Watch was registered, its subscription is no longer live — both regardless
of how many dispatch calls failed. -/
theorem c8_clear_by_tag :
    ∀ (fails : NotifyCall → Bool) (ps : List Person) (tag : String)
      (ws : List (String × Nat)) (e : SubEnv),
      ((clear_notifications fails (fun _ => false) ps tag ws e).1.map
          CallResult.call =
        (ps.filterMap Person.notification_service).map (fun svc =>
          ⟨(split_service svc).1, (split_service svc).2,
            ⟨none, some "clear_notification", none⟩⟩)) ∧
      ((clear_notifications fails (fun _ => false) ps tag ws e).2.1 =
        ws.filter (fun kv => kv.1 != tag)) ∧
      (∀ s, (pop_watcher ws tag).1 = some s →
        s ∉ (clear_notifications fails (fun _ => false) ps tag ws e).2.2.live) := by
  intro fails ps tag ws e
  refine ⟨?_, ?_, ?_⟩
  · simp only [clear_notifications]
    induction ps with
    | nil => rfl
    | cons p rest ih =>
        cases h : p.notification_service with
        | none => simpa [h] using ih
        | some svc => simpa [h, call_notify_service] using ih
  · simp only [clear_notifications]
    cases h : ws.find? (fun kv => kv.1 == tag) with
    | some kv => simp [pop_watcher, h]
    | none =>
        simp only [pop_watcher, h]
        rw [eq_comm, List.filter_eq_self]
        intro a ha
        have hne := List.find?_eq_none.mp h a ha
        simpa using hne
  · intro s hs
    simp only [clear_notifications, hs, try_unsubscribe, unsubscribe,
      Bool.false_eq_true, if_false, List.mem_filter]
    simp

/-- C8, instantiated: every dispatch fails (`fails` constantly true) and yet
the clear call to person W is attempted, the `"t"` entry leaves the registry
and subscription 5 is released. -/
theorem c8_clear_by_tag_witness :
    ((clear_notifications (fun _ => true) (fun _ => false) [personW] "t"
        [("t", 5)] ⟨6, [5]⟩).1.map CallResult.call =
      [⟨"notify", "mobile_w", ⟨none, some "clear_notification", none⟩⟩]) ∧
    ((clear_notifications (fun _ => true) (fun _ => false) [personW] "t"
        [("t", 5)] ⟨6, [5]⟩).2.1 = []) ∧
    (5 ∉ (clear_notifications (fun _ => true) (fun _ => false) [personW] "t"
        [("t", 5)] ⟨6, [5]⟩).2.2.live) := by
  obtain ⟨h1, h2, h3⟩ :=
    c8_clear_by_tag (fun _ => true) [personW] "t" [("t", 5)] ⟨6, [5]⟩
  exact ⟨h1, h2, h3 5 rfl⟩

/-- C9: `_build_payload` is a pure field mapping — the callback list maps
1:1 to the actions list with `event` renamed to `action`, `tag`, image URL,
click URL and colour pass through, and every absent optional field stays
absent in the payload; title and message are attached by `_send_to_person`
(the caller), not by the builder. -/
theorem c9_build_payload :
    ∀ (fails : NotifyCall → Bool) (d : Request) (p : Person),
      (build_payload d =
        { actions := d.callback.map (fun cbs => cbs.map (fun cb =>
            { action := cb.event, title := cb.title })),
          tag := d.tag, image := d.image_url, clickAction := d.click_url,
          color := d.color }) ∧
      (∀ svc, p.notification_service = some svc →
        send_to_person fails d p =
          [call_notify_service fails (split_service svc).1 (split_service svc).2
            ⟨some (d.title.getD ""), some (d.message.getD ""),
              some (build_payload d)⟩]) := by
  intro fails d p
  constructor
  · obtain ⟨t, m, tg, cb, iu, cu, co⟩ := d
    cases cb <;> cases tg <;> cases iu <;> cases cu <;> cases co <;> rfl
  · intro svc h
    simp [send_to_person, h]

/-- C9, instantiated on a request with every optional field present. -/
theorem c9_build_payload_witness :
    (build_payload reqFull =
      ⟨some [⟨some "ev", some "cbt"⟩], some "tg", some "http://img",
        some "http://click", some "red"⟩) ∧
    (send_to_person (fun _ => false) reqFull personP9 =
      [⟨⟨"notify", "mobile_p9", ⟨some "T", some "M",
          some (build_payload reqFull)⟩⟩, true⟩]) :=
  ⟨(c9_build_payload (fun _ => false) reqFull personP9).1,
   (c9_build_payload (fun _ => false) reqFull personP9).2 "notify/mobile_p9" rfl⟩

/-- C10: a `when-present` request handled while the occupancy sensor has no
state at all is appended to the Staging Queue with zero dispatch calls —
exactly the behaviour for a state other than `"on"`. -/
theorem c10_missing_sensor_stages :
    ∀ (fails : NotifyCall → Bool) (st : States) (m : Manager) (d : Request),
      states_get st m.home_sensor = none →
      send_when_present fails st m d = ({ m with staged := m.staged ++ [d] }, []) := by
  intro fails st m d h
  simp [send_when_present, h]

/-- C10, instantiated: an empty state store has no occupancy state, so the
request is staged and nothing is dispatched. -/
theorem c10_missing_sensor_stages_witness :
    send_when_present (fun _ => false) [] manager0 reqDoor =
      ({ manager0 with staged := [reqDoor] }, []) :=
  c10_missing_sensor_stages (fun _ => false) [] manager0 reqDoor rfl

end Notifier
